import Mathlib

/-!
Verification development for the browser-based 3D arcade driving game
(simulation core: car controller, score manager, obstacle manager,
collision detector, game-loop orchestrator).

The TypeScript sources are shallowly embedded as follows:
* JavaScript `number` values are modelled as rationals (`ℚ`); the integer
  results of `Math.floor` are modelled with `Int.floor`.
* `Math.sin`/`Math.cos` (used via `THREE.Vector3.applyAxisAngle` with the
  y-axis) are modelled by an abstract trigonometry oracle `Trig`; all
  theorems hold for every oracle.
* `Math.random()` is modelled by an explicit stream of draw values
  (`Rng`): each call consumes the next stream element, which in the
  browser lies in `[0, 1)`.
* `Date.now()` and other external clock reads are passed in as explicit
  arguments.
* THREE.js mesh handles are modelled by presence flags / pool indices;
  purely visual mutations (mesh transforms, banking lean, wheel spin on
  the mesh, scale tweaks) that no game logic reads back are noted in
  comments where dropped.
-/

set_option autoImplicit false

/-- 3D vector (THREE.Vector3 restricted to the componentwise operations the
game uses). -/
structure Vec3 where
  x : ℚ
  y : ℚ
  z : ℚ
deriving DecidableEq, Repr

/-- Componentwise vector addition (`THREE.Vector3.add`). -/
def Vec3.add (a b : Vec3) : Vec3 :=
  { x := a.x + b.x, y := a.y + b.y, z := a.z + b.z }

/-- Componentwise vector subtraction (`THREE.Vector3.sub`). -/
def Vec3.sub (a b : Vec3) : Vec3 :=
  { x := a.x - b.x, y := a.y - b.y, z := a.z - b.z }

/-- Scalar multiplication (`THREE.Vector3.multiplyScalar`). -/
def Vec3.smul (a : Vec3) (k : ℚ) : Vec3 :=
  { x := a.x * k, y := a.y * k, z := a.z * k }

/-- Abstract oracle for the trigonometric functions used by
`THREE.Vector3.applyAxisAngle` about the y-axis.  Rotating `(x, y, z)`
about the y-axis by angle `t` yields
`(x * cos t + z * sin t, y, -x * sin t + z * cos t)`. -/
structure Trig where
  cos : ℚ → ℚ
  sin : ℚ → ℚ

namespace MathUtils

/-- `MathUtils.clamp` from `src/lib/utils/math-utils.ts`:
`Math.min(Math.max(value, min), max)`. -/
def clamp (value lo hi : ℚ) : ℚ :=
  min (max value lo) hi

/-- `MathUtils.lerp` from `src/lib/utils/math-utils.ts`. -/
def lerp (a b t : ℚ) : ℚ :=
  a + (b - a) * t

/-- The value produced by `MathUtils.random(min, max)` when the underlying
`Math.random()` call returns the draw `u`:
`Math.random() * (max - min) + min`. -/
def randomFrom (u lo hi : ℚ) : ℚ :=
  u * (hi - lo) + lo

end MathUtils

/-- The stream of raw `Math.random()` draws together with a cursor; each
call to `Math.random()` consumes one stream element. -/
structure Rng where
  stream : ℕ → ℚ
  idx : ℕ

/-- Consume one `Math.random()` draw. -/
def Rng.next (r : Rng) : ℚ × Rng :=
  (r.stream r.idx, { r with idx := r.idx + 1 })

namespace MathUtils

/-- `MathUtils.random(min, max)` with the random source threaded
explicitly. -/
def random (r : Rng) (lo hi : ℚ) : ℚ × Rng :=
  let (u, r2) := r.next
  (randomFrom u lo hi, r2)

end MathUtils

namespace CarController

/-- `private maxSpeed: number = 25`. -/
def maxSpeed : ℚ := 25

/-- `private acceleration: number = 15`. -/
def acceleration : ℚ := 15

/-- `private deceleration: number = 10`. -/
def deceleration : ℚ := 10

/-- `private turnSpeed: number = 2.5`. -/
def turnSpeed : ℚ := 5 / 2

/-- The key states the controller reads from its `keys` map. -/
structure KeyMap where
  arrowUp : Bool
  keyW : Bool
  arrowDown : Bool
  keyS : Bool
  arrowLeft : Bool
  keyA : Bool
  arrowRight : Bool
  keyD : Bool
deriving DecidableEq, Repr

/-- `ControlSettings` from `CarController.ts`. -/
structure ControlSettings where
  sensitivity : ℚ
  invertSteering : Bool
deriving DecidableEq, Repr

/-- The mutable state of a `CarController` instance.  `car : Bool` models
whether the THREE mesh handle `this.car` is non-null (`initialize` sets
it).  The mesh-side visual state (banking lean `car.rotation.z`, wheel
meshes) is presentation-only and not read back by game logic. -/
structure CarState where
  car : Bool
  position : Vec3
  velocity : Vec3
  rotation : ℚ
  speed : ℚ
  keys : KeyMap
  settings : ControlSettings
  wheelRotation : ℚ
  engineSound : ℚ
deriving DecidableEq, Repr

/-- The forward movement direction: `(0, 0, -1)` rotated about the y-axis
by `rotation` (`direction.applyAxisAngle(new Vector3(0,1,0), rotation)`). -/
def forwardDir (T : Trig) (rotation : ℚ) : Vec3 :=
  { x := -(T.sin rotation), y := 0, z := -(T.cos rotation) }

/-- `private handleInput(deltaTime)`: asymmetric acceleration/braking with
friction decay toward zero, and speed-scaled steering above the minimum
speed threshold. -/
def handleInput (s : CarState) (deltaTime : ℚ) : CarState :=
  let inputAcceleration : ℚ := if s.keys.arrowUp || s.keys.keyW then 1 else 0
  let inputBraking : ℚ := if s.keys.arrowDown || s.keys.keyS then 1 else 0
  let inputSteering : ℚ :=
    (if s.keys.arrowLeft || s.keys.keyA then -1 else 0) +
      (if s.keys.arrowRight || s.keys.keyD then 1 else 0)
  let adjustedSteering := inputSteering * s.settings.sensitivity
  let finalSteering := if s.settings.invertSteering then -adjustedSteering else adjustedSteering
  let s1 :=
    if 0 < inputAcceleration then
      { s with speed := min (s.speed + acceleration * deltaTime) maxSpeed }
    else if 0 < inputBraking then
      { s with speed := max (s.speed - deceleration * deltaTime) (-maxSpeed * (1 / 2)) }
    else if 0 < s.speed then
      { s with speed := max (s.speed - deceleration * (1 / 2) * deltaTime) 0 }
    else if s.speed < 0 then
      { s with speed := min (s.speed + deceleration * (1 / 2) * deltaTime) 0 }
    else s
  if 1 / 10 < |s1.speed| ∧ 1 / 10 < |finalSteering| then
    let steeringEffect := finalSteering * turnSpeed * deltaTime
    let speedFactor := |s1.speed| / maxSpeed
    { s1 with rotation := s1.rotation + steeringEffect * speedFactor }
  else s1

/-- `private updatePhysics(deltaTime)`: integrate heading-projected
velocity, hard-clamp the lateral position to the road half-width `8` and
pin the height to road level `0.5`.  The banking lean written to the mesh
(`car.rotation.z`) is visual only and not part of the vehicle state. -/
def updatePhysics (T : Trig) (s : CarState) (deltaTime : ℚ) : CarState :=
  if s.car = false then s
  else
    let direction := forwardDir T s.rotation
    let velocity := direction.smul s.speed
    let position := s.position.add (velocity.smul deltaTime)
    let position :=
      { position with x := MathUtils.clamp position.x (-8) 8, y := 1 / 2 }
    { s with velocity := velocity, position := position }

/-- `private updateVisuals(deltaTime)`: wheel spin accumulator and engine
sound intensity (the wheel-mesh transforms themselves are
presentation-only). -/
def updateVisuals (s : CarState) (deltaTime : ℚ) : CarState :=
  if s.car = false then s
  else
    let s1 := { s with wheelRotation := s.wheelRotation + s.speed * deltaTime * 2 }
    { s1 with engineSound := |s1.speed| / maxSpeed }

/-- `update(deltaTime)`: no-op without an initialized car handle,
otherwise input, physics, then visuals (the final bounding-box refresh is
derived purely from the mesh). -/
def update (T : Trig) (s : CarState) (deltaTime : ℚ) : CarState :=
  if s.car = false then s
  else updateVisuals (updatePhysics T (handleInput s deltaTime) deltaTime) deltaTime

/-- `handleCollision()`: damp speed to 30 %, push the car backward along
its heading (`(0,0,1)` rotated by `rotation`, scaled by `2`) and re-clamp
the lateral position. -/
def handleCollision (T : Trig) (s : CarState) : CarState :=
  let s1 := { s with speed := s.speed * (3 / 10) }
  let pushBack : Vec3 := { x := T.sin s1.rotation, y := 0, z := T.cos s1.rotation }
  let position := s1.position.add (pushBack.smul 2)
  { s1 with position := { position with x := MathUtils.clamp position.x (-8) 8 } }

/-- `reset()`: restore the initial pose and clear key states. -/
def reset (s : CarState) : CarState :=
  { s with position := { x := 0, y := 1 / 2, z := 0 },
           velocity := { x := 0, y := 0, z := 0 },
           rotation := 0, speed := 0, wheelRotation := 0, engineSound := 0,
           keys := { arrowUp := false, keyW := false, arrowDown := false, keyS := false,
                     arrowLeft := false, keyA := false, arrowRight := false, keyD := false } }

end CarController

namespace ScoreManager

/-- `DISTANCE_MULTIPLIER = 10`. -/
def DISTANCE_MULTIPLIER : ℚ := 10

/-- `SPEED_MULTIPLIER = 5`. -/
def SPEED_MULTIPLIER : ℚ := 5

/-- `COMBO_MULTIPLIER = 50` (the per-combo-unit bonus). -/
def COMBO_MULTIPLIER : ℚ := 50

/-- `TIME_MULTIPLIER = 2`. -/
def TIME_MULTIPLIER : ℚ := 2

/-- `OBSTACLE_AVOIDANCE_POINTS = 100`. -/
def OBSTACLE_AVOIDANCE_POINTS : ℚ := 100

/-- `COMBO_TIMEOUT = 3` seconds. -/
def COMBO_TIMEOUT : ℚ := 3

/-- The mutable state of a `ScoreManager` instance.  `score` and
`highScore` only ever receive integer increments (`Math.floor`ed), so they
are carried as integers; lives and combo counters likewise. -/
structure ScoreState where
  score : ℤ
  highScore : ℤ
  distance : ℚ
  lives : ℤ
  maxLives : ℤ
  combo : ℤ
  maxCombo : ℤ
  gameStartTime : ℚ
  timeSurvived : ℚ
  comboTimer : ℚ
  lastObstacleAvoidanceTime : ℚ
deriving DecidableEq, Repr

/-- The field initializers of the `ScoreManager` class. -/
def initState : ScoreState :=
  { score := 0, highScore := 0, distance := 0, lives := 3, maxLives := 3,
    combo := 0, maxCombo := 0, gameStartTime := 0, timeSurvived := 0,
    comboTimer := 0, lastObstacleAvoidanceTime := 0 }

/-- `private resetCombo()`: zero the combo and its timer, but only when a
combo is running. -/
def resetCombo (s : ScoreState) : ScoreState :=
  if 0 < s.combo then { s with combo := 0, comboTimer := 0 } else s

/-- `update(deltaTime, carSpeed)`: accrue survival time, distance score,
high-speed bonus and flat time bonus, then break the combo on timeout. -/
def update (s : ScoreState) (deltaTime carSpeed : ℚ) : ScoreState :=
  let s1 := { s with timeSurvived := s.timeSurvived + deltaTime,
                     comboTimer := s.comboTimer - deltaTime }
  let distanceDelta := |carSpeed| * deltaTime
  let s2 := { s1 with distance := s1.distance + distanceDelta,
                      score := s1.score + Int.floor (distanceDelta * DISTANCE_MULTIPLIER) }
  let s3 :=
    if 15 < carSpeed then
      { s2 with score := s2.score + Int.floor ((carSpeed - 15) * SPEED_MULTIPLIER * deltaTime) }
    else s2
  let s4 := { s3 with score := s3.score + Int.floor (TIME_MULTIPLIER * deltaTime) }
  if s4.comboTimer ≤ 0 ∧ 0 < s4.combo then resetCombo s4 else s4

/-- The per-obstacle-type bonus factor of `awardObstacleAvoidance`'s
`switch`. -/
def obstacleTypeMultiplier (obstacleType : String) : ℚ :=
  if obstacleType = "wall" then 3 / 2
  else if obstacleType = "moving_barrier" then 2
  else if obstacleType = "narrow_passage" then 5 / 2
  else 1

/-- `awardObstacleAvoidance(obstacleType, difficulty)`.  `currentTime` is
the external wall-clock read `Date.now() / 1000`.  Within the 2-second
window the combo increments and adds `combo * COMBO_MULTIPLIER` to the
reward; otherwise the combo restarts at 1. -/
def awardObstacleAvoidance (s : ScoreState) (obstacleType : String)
    (difficulty : ℚ) (currentTime : ℚ) : ScoreState :=
  let points := OBSTACLE_AVOIDANCE_POINTS * obstacleTypeMultiplier obstacleType
  let points := points * difficulty
  if currentTime - s.lastObstacleAvoidanceTime ≤ 2 then
    let combo := s.combo + 1
    let points := points + (combo : ℚ) * COMBO_MULTIPLIER
    { s with combo := combo, comboTimer := COMBO_TIMEOUT,
             maxCombo := max s.maxCombo combo,
             score := s.score + Int.floor points,
             lastObstacleAvoidanceTime := currentTime }
  else
    { s with combo := 1, comboTimer := COMBO_TIMEOUT,
             maxCombo := max s.maxCombo 1,
             score := s.score + Int.floor points,
             lastObstacleAvoidanceTime := currentTime }

/-- `loseLife()`: clamp lives at zero and break the combo (the source
additionally returns the new lives count). -/
def loseLife (s : ScoreState) : ScoreState :=
  resetCombo { s with lives := max 0 (s.lives - 1) }

/-- `gainLife()`: increment lives only when strictly below `maxLives`. -/
def gainLife (s : ScoreState) : ScoreState :=
  if s.lives < s.maxLives then { s with lives := s.lives + 1 } else s

/-- `calculateFinalScore()`: running score plus survival-time bonus,
1000-unit distance-milestone bonus and max-combo bonus. -/
def calculateFinalScore (s : ScoreState) : ℤ :=
  s.score + Int.floor (s.timeSurvived * 50) + Int.floor (s.distance / 1000) * 1000 +
    s.maxCombo * 200

/-- `reset()`: restore a fresh game; `now` is the external
`Date.now() / 1000` read stored into `gameStartTime`. -/
def reset (s : ScoreState) (now : ℚ) : ScoreState :=
  { s with score := 0, distance := 0, lives := s.maxLives, combo := 0,
           maxCombo := 0, timeSurvived := 0, comboTimer := 0,
           lastObstacleAvoidanceTime := 0, gameStartTime := now }

/-- The state-mutating public operations of the score manager, used to
quantify over arbitrary call sequences. -/
inductive ScoreOp where
  | tick (deltaTime carSpeed : ℚ)
  | avoid (obstacleType : String) (difficulty currentTime : ℚ)
  | hitLoseLife
  | powerGainLife
  | newGame (now : ℚ)

/-- Apply one score-manager operation. -/
def applyOp (s : ScoreState) : ScoreOp → ScoreState
  | ScoreOp.tick dt sp => update s dt sp
  | ScoreOp.avoid ty d t => awardObstacleAvoidance s ty d t
  | ScoreOp.hitLoseLife => loseLife s
  | ScoreOp.powerGainLife => gainLife s
  | ScoreOp.newGame now => reset s now

/-- Apply a sequence of score-manager operations in order. -/
def applyOps (s : ScoreState) (ops : List ScoreOp) : ScoreState :=
  ops.foldl applyOp s

end ScoreManager

namespace ObstacleManager

/-- The closed set of obstacle geometry types. -/
inductive ObstacleType where
  | barrier
  | wall
  | cone
deriving DecidableEq, Repr

instance : Fintype ObstacleType :=
  ⟨⟨{ObstacleType.barrier, ObstacleType.wall, ObstacleType.cone}, by decide⟩,
   fun x => by cases x <;> decide⟩

/-- `ObstacleData` from `ObstacleManager`: the mesh reference is modelled
by the pool slot it came from (`meshType`, `meshIdx`).  The
`boundingBox` field is omitted: the collision detector recomputes it from
the mesh (`setFromObject`) before every use, which the detector model
captures with its mesh-box oracle. -/
structure ObstacleData where
  meshType : ObstacleType
  meshIdx : ℕ
  position : Vec3
  isActive : Bool
  speed : Option ℚ
  direction : Option Vec3
deriving DecidableEq, Repr

/-- The mutable state of an `ObstacleManager` instance.  `pool t` is the
list of `visible` flags of the pooled meshes of type `t` (a pooled mesh is
free exactly when its flag is `false`); `scene` models whether
`this.scene` is non-null; `rng` threads the `Math.random()` stream. -/
structure OMState where
  scene : Bool
  obstacles : List ObstacleData
  pool : ObstacleType → List Bool
  spawnDistance : ℚ
  despawnDistance : ℚ
  lastSpawnZ : ℚ
  difficulty : ℚ
  timeSinceStart : ℚ
  rng : Rng

/-- The field initializers of the `ObstacleManager` class (the pool `Map`
starts empty). -/
def initialState (r : Rng) : OMState :=
  { scene := false, obstacles := [], pool := fun _ => [], spawnDistance := 100,
    despawnDistance := -50, lastSpawnZ := 50, difficulty := 1,
    timeSinceStart := 0, rng := r }

/-- The index of the first free mesh in a pool
(`pool.find(obj => !obj.visible)`). -/
def firstFree : List Bool → Option ℕ
  | [] => none
  | visible :: rest =>
    if visible then (firstFree rest).map (fun i => i + 1) else some 0

/-- `private createObstaclePool()`: 20 fresh invisible meshes per type. -/
def createObstaclePool (s : OMState) : OMState :=
  { s with pool := fun _ => List.replicate 20 false }

/-- `private getObstacleFromPool(type)`: the slot of the first free pooled
mesh, or `none` when the pool is exhausted (or the pool `Map` has no entry
for the type). -/
def getObstacleFromPool (s : OMState) (t : ObstacleType) : Option ℕ :=
  firstFree (s.pool t)

/-- `private returnObstacleToPool(obstacle)`: mark the mesh invisible (the
source also parks it at `(0, -100, 0)`, outside play). -/
def returnObstacleToPool (pool : ObstacleType → List Bool) (o : ObstacleData) :
    ObstacleType → List Bool :=
  Function.update pool o.meshType ((pool o.meshType).set o.meshIdx false)

/-- `private createObstacle(type, x, z)`: draw a mesh from the pool, make
it visible, position it (`y = 0.75` for cones, else `1`) and push the new
`ObstacleData`; a `none` second component is the dropped-spawn case. -/
def createObstacle (s : OMState) (t : ObstacleType) (x z : ℚ) :
    OMState × Option ObstacleData :=
  if s.scene = false then (s, none)
  else
    match firstFree (s.pool t) with
    | none => (s, none)
    | some i =>
      let data : ObstacleData :=
        { meshType := t, meshIdx := i,
          position := { x := x, y := if t = ObstacleType.cone then 3 / 4 else 1, z := z },
          isActive := true, speed := none, direction := none }
      ({ s with
          pool := Function.update s.pool t ((s.pool t).set i true),
          obstacles := s.obstacles ++ [data] },
       some data)

/-- Mutate the most recently pushed obstacle record (the source mutates the
object returned by `createObstacle`, which is the last array element). -/
def modifyLast (f : ObstacleData → ObstacleData) : List ObstacleData → List ObstacleData
  | [] => []
  | [a] => [f a]
  | a :: b :: rest => a :: modifyLast f (b :: rest)

/-- `private spawnSingleBarrier(z)`. -/
def spawnSingleBarrier (s : OMState) (z : ℚ) : OMState :=
  let (x, r) := MathUtils.random s.rng (-6) 6
  (createObstacle { s with rng := r } ObstacleType.barrier x z).1

/-- `private spawnDoubleBarrier(z)`. -/
def spawnDoubleBarrier (s : OMState) (z : ℚ) : OMState :=
  let (gap, r1) := MathUtils.random s.rng 4 6
  let (centerX, r2) := MathUtils.random r1 (-3) 3
  let s1 := (createObstacle { s with rng := r2 } ObstacleType.barrier (centerX - gap / 2) z).1
  (createObstacle s1 ObstacleType.barrier (centerX + gap / 2) z).1

/-- `private spawnWallGap(z)` (the `scale.x` tweak on the wall meshes is
visual only). -/
def spawnWallGap (s : OMState) (z : ℚ) : OMState :=
  let (gapCenter, r1) := MathUtils.random s.rng (-4) 4
  let (gapWidth, r2) := MathUtils.random r1 3 5
  let s1 := { s with rng := r2 }
  let s2 :=
    if -8 < gapCenter - gapWidth / 2 then
      (createObstacle s1 ObstacleType.wall (gapCenter - gapWidth / 2 - 4) z).1
    else s1
  if gapCenter + gapWidth / 2 < 8 then
    (createObstacle s2 ObstacleType.wall (gapCenter + gapWidth / 2 + 4) z).1
  else s2

/-- The loop body of `spawnConeSlalom`: place `n` more cones starting at
slalom index `i`. -/
def coneSlalomLoop (z : ℚ) : ℕ → ℕ → OMState → OMState
  | _, 0, s => s
  | i, Nat.succ n, s =>
    let (dx, r) := MathUtils.random s.rng (-1) 1
    let x := (if i % 2 = 0 then (-3 : ℚ) else 3) + dx
    let s1 := (createObstacle { s with rng := r } ObstacleType.cone x (z + (i : ℚ) * 8)).1
    coneSlalomLoop z (i + 1) n s1

/-- `private spawnConeSlalom(z)`: `3 + Math.floor(difficulty)` alternating
cones spaced 8 apart. -/
def spawnConeSlalom (s : OMState) (z : ℚ) : OMState :=
  let numCones := 3 + Int.toNat (Int.floor s.difficulty)
  coneSlalomLoop z 0 numCones s

/-- `private spawnNarrowPassage(z)`. -/
def spawnNarrowPassage (s : OMState) (z : ℚ) : OMState :=
  let passageWidth := max 3 (5 - s.difficulty)
  let s1 := (createObstacle s ObstacleType.barrier (-passageWidth / 2 - 1) z).1
  let s2 := (createObstacle s1 ObstacleType.barrier (passageWidth / 2 + 1) z).1
  let s3 := (createObstacle s2 ObstacleType.barrier (-passageWidth / 2 - 1) (z + 5)).1
  (createObstacle s3 ObstacleType.barrier (passageWidth / 2 + 1) (z + 5)).1

/-- `private spawnMovingBarriers(z)`: two barriers that are given opposing
lateral movement descriptors after creation. -/
def spawnMovingBarriers (s : OMState) (z : ℚ) : OMState :=
  let (s1, leftBarrier) := createObstacle s ObstacleType.barrier (-4) z
  let s2 :=
    match leftBarrier with
    | some _ =>
      let (spd, r) := MathUtils.random s1.rng 2 4
      { s1 with rng := r,
                obstacles := modifyLast
                  (fun o => { o with speed := some spd,
                                     direction := some { x := 1, y := 0, z := 0 } })
                  s1.obstacles }
    | none => s1
  let (s3, rightBarrier) := createObstacle s2 ObstacleType.barrier 4 z
  match rightBarrier with
  | some _ =>
    let (spd, r) := MathUtils.random s3.rng 2 4
    { s3 with rng := r,
              obstacles := modifyLast
                (fun o => { o with speed := some spd,
                                   direction := some { x := -1, y := 0, z := 0 } })
                s3.obstacles }
  | none => s3

/-- The fixed enumerated pattern set. -/
def patterns : List String :=
  ["single_barrier", "double_barrier", "wall_gap", "cone_slalom",
   "narrow_passage", "moving_barriers"]

/-- `private spawnObstaclePattern(z)`: pick
`patterns[Math.floor(Math.random() * patterns.length)]` and dispatch (an
out-of-range index reads `undefined` and matches no `switch` case). -/
def spawnObstaclePattern (s : OMState) (z : ℚ) : OMState :=
  if s.scene = false then s
  else
    let (u, r) := s.rng.next
    let s1 := { s with rng := r }
    let patternIdx := Int.floor (u * (patterns.length : ℚ))
    let chosen := if 0 ≤ patternIdx then patterns.get? (Int.toNat patternIdx) else none
    match chosen with
    | some p =>
      if p = "single_barrier" then spawnSingleBarrier s1 z
      else if p = "double_barrier" then spawnDoubleBarrier s1 z
      else if p = "wall_gap" then spawnWallGap s1 z
      else if p = "cone_slalom" then spawnConeSlalom s1 z
      else if p = "narrow_passage" then spawnNarrowPassage s1 z
      else if p = "moving_barriers" then spawnMovingBarriers s1 z
      else s1
    | none => s1

/-- `private spawnInitialObstacles()`: one pattern at each
`z = 20, 35, ..., 95` (`for (let z = 20; z < 100; z += 15)`). -/
def spawnInitialObstacles (s : OMState) : OMState :=
  ([20, 35, 50, 65, 80, 95] : List ℚ).foldl (fun s2 z => spawnObstaclePattern s2 z) s

/-- The manager's async scene-setup entry point: record the scene handle,
build the pools and spawn the initial batch. -/
def initManager (s : OMState) : OMState :=
  spawnInitialObstacles (createObstaclePool { s with scene := true })

/-- `private updateDifficulty()`: `1 + timeSinceStart / 30`, capped at 5. -/
def updateDifficulty (s : OMState) : OMState :=
  { s with difficulty := min (1 + s.timeSinceStart / 30) 5 }

/-- `private cleanupObstacles(carPosition)`: deactivate every obstacle
more than `despawnDistance` behind the car, returning its mesh to the
pool. -/
def cleanupObstacles (s : OMState) (carPosition : Vec3) : OMState :=
  let behind := fun (o : ObstacleData) =>
    decide (o.position.z < carPosition.z + s.despawnDistance)
  { s with obstacles := s.obstacles.filter (fun o => !(behind o)),
           pool := (s.obstacles.filter behind).foldl returnObstacleToPool s.pool }

/-- The `while (this.lastSpawnZ < spawnZ)` loop of `spawnObstacles`,
written with explicit fuel: each iteration advances `lastSpawnZ` by
`MathUtils.random(10, 20 / difficulty)` and places one pattern at the new
coordinate. -/
def spawnLoop (spawnZ : ℚ) : ℕ → OMState → OMState
  | 0, s => s
  | Nat.succ fuel, s =>
    if s.lastSpawnZ < spawnZ then
      let (inc, r) := MathUtils.random s.rng 10 (20 / s.difficulty)
      let s1 := { s with rng := r, lastSpawnZ := s.lastSpawnZ + inc }
      spawnLoop spawnZ fuel (spawnObstaclePattern s1 s1.lastSpawnZ)
    else s

/-- `private spawnObstacles(carPosition)`: fill up to
`carPosition.z + spawnDistance`. -/
def spawnObstacles (s : OMState) (carPosition : Vec3) (fuel : ℕ) : OMState :=
  spawnLoop (carPosition.z + s.spawnDistance) fuel s

/-- The per-obstacle body of `updateMovingObstacles`: translate by
`direction * speed * deltaTime` and negate the lateral direction outside
`|x| ≤ 7`. -/
def moveObstacle (deltaTime : ℚ) (o : ObstacleData) : ObstacleData :=
  match o.speed, o.direction with
  | some spd, some dir =>
    let movement := dir.smul (spd * deltaTime)
    let pos := o.position.add movement
    let dir2 := if 7 < pos.x ∨ pos.x < -7 then { dir with x := dir.x * (-1) } else dir
    { o with position := pos, direction := some dir2 }
  | _, _ => o

/-- `private updateMovingObstacles(deltaTime)`. -/
def updateMovingObstacles (s : OMState) (deltaTime : ℚ) : OMState :=
  { s with obstacles := s.obstacles.map (moveObstacle deltaTime) }

/-- `update(deltaTime, carPosition)`: advance time and difficulty, clean
up, spawn ahead, and animate movers.  `fuel` bounds the source's unbounded
`while` loop (claim C10 shows a concrete sufficient amount). -/
def update (s : OMState) (deltaTime : ℚ) (carPosition : Vec3) (fuel : ℕ) : OMState :=
  let s1 := updateDifficulty { s with timeSinceStart := s.timeSinceStart + deltaTime }
  let s2 := cleanupObstacles s1 carPosition
  let s3 := spawnObstacles s2 carPosition fuel
  updateMovingObstacles s3 deltaTime

/-- `reset()`: return every mesh to its pool, restore the spawn cursor,
difficulty and clock, and respawn the initial batch. -/
def reset (s : OMState) : OMState :=
  let pool := s.obstacles.foldl returnObstacleToPool s.pool
  spawnInitialObstacles
    { s with pool := pool, obstacles := [], lastSpawnZ := 50, difficulty := 1,
             timeSinceStart := 0 }

/-- `getObstacles()`: the active subset. -/
def getObstacles (s : OMState) : List ObstacleData :=
  s.obstacles.filter (fun o => o.isActive)

/-- The manager states reachable in a session: scene setup on a fresh
instance, followed by any interleaving of `update` and `reset` calls. -/
inductive Reachable : OMState → Prop
  | initialized (r : Rng) : Reachable (initManager (initialState r))
  | stepUpdate (s : OMState) (deltaTime : ℚ) (carPosition : Vec3) (fuel : ℕ) :
      Reachable s → Reachable (update s deltaTime carPosition fuel)
  | stepReset (s : OMState) : Reachable s → Reachable (reset s)

end ObstacleManager

namespace CollisionDetector

open ObstacleManager

/-- `THREE.Box3`: an axis-aligned box given by its min and max corners. -/
structure Box3 where
  lowCorner : Vec3
  highCorner : Vec3
deriving DecidableEq, Repr

/-- `THREE.Box3.intersectsBox`: overlap on all three axes. -/
def Box3.intersectsBox (a b : Box3) : Bool :=
  !(decide (b.highCorner.x < a.lowCorner.x) || decide (a.highCorner.x < b.lowCorner.x) ||
    decide (b.highCorner.y < a.lowCorner.y) || decide (a.highCorner.y < b.lowCorner.y) ||
    decide (b.highCorner.z < a.lowCorner.z) || decide (a.highCorner.z < b.lowCorner.z))

/-- `THREE.Box3.getCenter`. -/
def Box3.getCenter (b : Box3) : Vec3 :=
  (b.lowCorner.add b.highCorner).smul (1 / 2)

/-- `THREE.Box3.getSize`. -/
def Box3.getSize (b : Box3) : Vec3 :=
  b.highCorner.sub b.lowCorner

/-- `CollisionResult` from `CollisionDetector.ts`. -/
structure CollisionResult where
  hasCollision : Bool
  obstacle : Option ObstacleData
  impactPoint : Option Vec3
  impactNormal : Option Vec3
deriving DecidableEq, Repr

/-- The nearest intersection returned by
`raycaster.intersectObject(mesh, true)` (THREE sorts hits by distance). -/
structure RayHit where
  distance : ℚ
  point : Vec3
  faceNormal : Option Vec3
deriving DecidableEq, Repr

/-- Oracle for the THREE.js geometry queries the detector delegates to:
`Box3.setFromObject` on an obstacle's mesh, and the nearest raycast hit
from an origin along a direction against an obstacle's mesh. -/
structure GeomOracle where
  meshBox : ObstacleData → Box3
  raycast : Vec3 → Vec3 → ObstacleData → Option RayHit

/-- The six axis-aligned ray directions of `detailedCollisionCheck`. -/
def rayDirections : List Vec3 :=
  [{ x := 1, y := 0, z := 0 }, { x := -1, y := 0, z := 0 },
   { x := 0, y := 0, z := 1 }, { x := 0, y := 0, z := -1 },
   { x := 0, y := 1, z := 0 }, { x := 0, y := -1, z := 0 }]

/-- The all-clear result (`{ hasCollision: false }`). -/
def noCollision : CollisionResult :=
  { hasCollision := false, obstacle := none, impactPoint := none, impactNormal := none }

/-- The `for (const direction of directions)` loop of
`detailedCollisionCheck`: accept the first direction whose nearest hit is
within `maxDistance` (a farther hit does not return — the loop goes on). -/
def rayLoop (G : GeomOracle) (carCenter : Vec3) (maxDistance : ℚ)
    (obstacle : ObstacleData) : List Vec3 → CollisionResult
  | [] => noCollision
  | d :: rest =>
    match G.raycast carCenter d obstacle with
    | some hit =>
      if hit.distance ≤ maxDistance then
        { hasCollision := true, obstacle := some obstacle,
          impactPoint := some hit.point,
          impactNormal := some (hit.faceNormal.getD { x := 0, y := 1, z := 0 }) }
      else rayLoop G carCenter maxDistance obstacle rest
    | none => rayLoop G carCenter maxDistance obstacle rest

/-- `private detailedCollisionCheck(carBoundingBox, obstacle)`: six rays
from the car's center, accepted within 60 % of its largest dimension. -/
def detailedCollisionCheck (G : GeomOracle) (carBoundingBox : Box3)
    (obstacle : ObstacleData) : CollisionResult :=
  let carCenter := carBoundingBox.getCenter
  let carSize := carBoundingBox.getSize
  let maxDistance := max carSize.x (max carSize.y carSize.z) * (3 / 5)
  rayLoop G carCenter maxDistance obstacle rayDirections

/-- `checkCollisions(carBoundingBox, obstacles)`: skip inactive obstacles,
refresh each obstacle's bounding box from its mesh, run the broad-phase
box test, and only on broad-phase success run the narrow phase; the first
narrow-phase hit is returned. -/
def checkCollisions (G : GeomOracle) (carBoundingBox : Box3) :
    List ObstacleData → CollisionResult
  | [] => noCollision
  | obstacle :: rest =>
    if obstacle.isActive = false then checkCollisions G carBoundingBox rest
    else
      let obstacleBox := G.meshBox obstacle
      if carBoundingBox.intersectsBox obstacleBox then
        let detailedResult := detailedCollisionCheck G carBoundingBox obstacle
        if detailedResult.hasCollision then detailedResult
        else checkCollisions G carBoundingBox rest
      else checkCollisions G carBoundingBox rest

end CollisionDetector

namespace GameEngine

/-- `enum GameState` from the orchestrator. -/
inductive GState where
  | menu
  | playing
  | paused
  | game_over
  | settingsScreen
deriving DecidableEq, Repr

/-- The `GameStats` record the orchestrator owns and publishes. -/
structure EngineStats where
  score : ℚ
  distance : ℚ
  speed : ℚ
  lives : ℤ
  combo : ℤ
  obstaclesAvoided : ℤ
  timeElapsed : ℚ
  level : ℤ
deriving DecidableEq, Repr

/-- The orchestrator state the claims concern: the coarse state machine
value, the stats record, and whether an animation-frame callback is
currently registered (`this.animationId`). -/
structure EngineState where
  gameState : GState
  stats : EngineStats
  animationId : Bool
deriving DecidableEq, Repr

/-- The per-tick readings `updateGame` takes from the other subsystems
(car controller distance/speed, score computation, and whether the
collision detector reported a hit against some active obstacle). -/
structure TickInputs where
  deltaTime : ℚ
  collisionDetected : Bool
  newDistance : ℚ
  newSpeed : ℚ
  newScore : ℚ
deriving DecidableEq, Repr

/-- `private handleCollision(obstacle)` restricted to the orchestrator's
own state: decrement lives and zero the combo (the car impulse, audio,
obstacle removal and screen shake act on other subsystems). -/
def handleCollisionStep (s : EngineState) : EngineState :=
  { s with stats := { s.stats with lives := s.stats.lives - 1, combo := 0 } }

/-- `endGame()`: enter `GAME_OVER` and cancel the pending animation frame
(clock stop, audio and the game-over/state-change notifications are
external effects). -/
def endGame (s : EngineState) : EngineState :=
  { s with gameState := GState.game_over, animationId := false }

/-- `private updateGame(deltaTime)`: refresh stats from the subsystems,
apply at most one collision, recompute score and level, and finally enter
`GAME_OVER` if lives are exhausted. -/
def updateGame (inp : TickInputs) (s : EngineState) : EngineState :=
  let s1 := { s with stats := { s.stats with
      timeElapsed := s.stats.timeElapsed + inp.deltaTime,
      distance := inp.newDistance, speed := inp.newSpeed } }
  let s2 := if inp.collisionDetected then handleCollisionStep s1 else s1
  let s3 := { s2 with stats := { s2.stats with score := inp.newScore } }
  let newLevel := Int.floor (s3.stats.distance / 1000) + 1
  let s4 :=
    if s3.stats.level < newLevel then
      { s3 with stats := { s3.stats with level := newLevel } }
    else s3
  if s4.stats.lives ≤ 0 then endGame s4 else s4

/-- `private gameLoop()`: a single animation-frame callback firing.  In a
non-`PLAYING` state it returns at once; otherwise it runs `updateGame`,
renders, and requests the next frame.  The boolean result records whether
`requestAnimationFrame` was called by this invocation. -/
def gameLoop (inp : TickInputs) (s : EngineState) : EngineState × Bool :=
  if s.gameState ≠ GState.playing then (s, false)
  else
    let s1 := updateGame inp s
    ({ s1 with animationId := true }, true)

end GameEngine

namespace MathUtils

theorem clamp_le (value lo hi : ℚ) : clamp value lo hi ≤ hi :=
  min_le_right _ _

theorem le_clamp (value lo hi : ℚ) (h : lo ≤ hi) : lo ≤ clamp value lo hi :=
  le_min (le_max_right _ _) h

end MathUtils

namespace CarController

theorem handleInput_car (s : CarState) (deltaTime : ℚ) :
    (handleInput s deltaTime).car = s.car := by
  unfold handleInput
  dsimp only
  repeat' split
  all_goals rfl

theorem updateVisuals_position (s : CarState) (deltaTime : ℚ) :
    (updateVisuals s deltaTime).position = s.position := by
  unfold updateVisuals
  split <;> rfl

theorem updatePhysics_position_x (T : Trig) (s : CarState) (deltaTime : ℚ)
    (hcar : s.car = true) :
    (updatePhysics T s deltaTime).position.x =
      MathUtils.clamp
        (s.position.x + -(T.sin s.rotation) * s.speed * deltaTime) (-8) 8 := by
  unfold updatePhysics
  rw [hcar]
  rfl

/-- **C1.** For every `deltaTime ≥ 0` and every vehicle state with an
initialized car handle, after `CarController.update(deltaTime)` the
vehicle's lateral position `position.x` lies within
`[-halfRoadWidth, halfRoadWidth]` with half-width 8. -/
theorem car_update_lateral_clamped (T : Trig) (s : CarState) (deltaTime : ℚ)
    (hdt : 0 ≤ deltaTime) (hcar : s.car = true) :
    -8 ≤ (update T s deltaTime).position.x ∧ (update T s deltaTime).position.x ≤ 8 := by
  have hcar2 : (handleInput s deltaTime).car = true := by
    rw [handleInput_car, hcar]
  unfold update
  rw [hcar]
  simp only [Bool.true_eq_false, if_false, updateVisuals_position,
    updatePhysics_position_x T _ _ hcar2]
  exact ⟨MathUtils.le_clamp _ _ _ (by norm_num), MathUtils.clamp_le _ _ _⟩

/-- Concrete instantiation of C1's theorem. -/
theorem car_update_lateral_clamped_witness :
    -8 ≤ (update { cos := fun _ => 1, sin := fun _ => 0 }
            { car := true, position := { x := 0, y := 1 / 2, z := 0 },
              velocity := { x := 0, y := 0, z := 0 }, rotation := 0, speed := 0,
              keys := { arrowUp := false, keyW := false, arrowDown := false,
                        keyS := false, arrowLeft := false, keyA := false,
                        arrowRight := false, keyD := false },
              settings := { sensitivity := 1, invertSteering := false },
              wheelRotation := 0, engineSound := 0 } 1).position.x ∧
    (update { cos := fun _ => 1, sin := fun _ => 0 }
            { car := true, position := { x := 0, y := 1 / 2, z := 0 },
              velocity := { x := 0, y := 0, z := 0 }, rotation := 0, speed := 0,
              keys := { arrowUp := false, keyW := false, arrowDown := false,
                        keyS := false, arrowLeft := false, keyA := false,
                        arrowRight := false, keyD := false },
              settings := { sensitivity := 1, invertSteering := false },
              wheelRotation := 0, engineSound := 0 } 1).position.x ≤ 8 :=
  car_update_lateral_clamped _ _ _ (by norm_num) rfl

/-- **C6.** `handleCollision` multiplies the current speed by the fixed
factor 0.3, translates the vehicle backward along its current heading
(the push vector is `-1` times the forward direction, scaled by the fixed
distance 2), re-clamps the lateral position to the road half-width 8, and
changes no other vehicle state. -/
theorem handleCollision_spec (T : Trig) (s : CarState) :
    (handleCollision T s).speed = s.speed * (3 / 10) ∧
    ((forwardDir T s.rotation).smul (-1) =
      { x := T.sin s.rotation, y := 0, z := T.cos s.rotation }) ∧
    (handleCollision T s).position.x =
      MathUtils.clamp (s.position.x + T.sin s.rotation * 2) (-8) 8 ∧
    (handleCollision T s).position.y = s.position.y ∧
    (handleCollision T s).position.z = s.position.z + T.cos s.rotation * 2 ∧
    (handleCollision T s).rotation = s.rotation ∧
    (handleCollision T s).velocity = s.velocity ∧
    (handleCollision T s).car = s.car ∧
    (handleCollision T s).keys = s.keys ∧
    (handleCollision T s).settings = s.settings ∧
    (handleCollision T s).wheelRotation = s.wheelRotation ∧
    (handleCollision T s).engineSound = s.engineSound := by
  refine ⟨rfl, ?_, rfl, ?_, rfl, rfl, rfl, rfl, rfl, rfl, rfl, rfl⟩
  · simp only [forwardDir, Vec3.smul]
    congr 1 <;> ring
  · simp [handleCollision, Vec3.add, Vec3.smul]

end CarController

namespace ScoreManager

theorem update_lives_eq (s : ScoreState) (deltaTime carSpeed : ℚ) :
    (update s deltaTime carSpeed).lives = s.lives ∧
    (update s deltaTime carSpeed).maxLives = s.maxLives := by
  unfold update resetCombo
  dsimp only
  repeat' split
  all_goals exact ⟨rfl, rfl⟩

theorem award_lives_eq (s : ScoreState) (ty : String) (d t : ℚ) :
    (awardObstacleAvoidance s ty d t).lives = s.lives ∧
    (awardObstacleAvoidance s ty d t).maxLives = s.maxLives := by
  unfold awardObstacleAvoidance
  dsimp only
  split
  all_goals exact ⟨rfl, rfl⟩

theorem loseLife_lives_eq (s : ScoreState) :
    (loseLife s).lives = max 0 (s.lives - 1) ∧ (loseLife s).maxLives = s.maxLives := by
  unfold loseLife resetCombo
  dsimp only
  split
  all_goals exact ⟨rfl, rfl⟩

theorem gainLife_lives_eq (s : ScoreState) :
    (gainLife s).lives = (if s.lives < s.maxLives then s.lives + 1 else s.lives) ∧
    (gainLife s).maxLives = s.maxLives := by
  unfold gainLife
  split <;> exact ⟨rfl, rfl⟩

theorem applyOp_lives_bounds (s : ScoreState) (op : ScoreOp)
    (h0 : 0 ≤ s.lives) (h1 : s.lives ≤ s.maxLives) :
    0 ≤ (applyOp s op).lives ∧ (applyOp s op).lives ≤ (applyOp s op).maxLives := by
  cases op with
  | tick dt sp =>
    rw [applyOp, (update_lives_eq s dt sp).1, (update_lives_eq s dt sp).2]
    exact ⟨h0, h1⟩
  | avoid ty d t =>
    rw [applyOp, (award_lives_eq s ty d t).1, (award_lives_eq s ty d t).2]
    exact ⟨h0, h1⟩
  | hitLoseLife =>
    rw [applyOp, (loseLife_lives_eq s).1, (loseLife_lives_eq s).2]
    constructor
    · exact le_max_left _ _
    · refine max_le (le_trans h0 h1) (by omega)
  | powerGainLife =>
    rw [applyOp, (gainLife_lives_eq s).1, (gainLife_lives_eq s).2]
    constructor
    · split <;> omega
    · split <;> omega
  | newGame now =>
    exact ⟨le_trans h0 h1, le_refl _⟩

theorem applyOps_lives_bounds (ops : List ScoreOp) :
    ∀ s : ScoreState, 0 ≤ s.lives → s.lives ≤ s.maxLives →
      0 ≤ (applyOps s ops).lives ∧ (applyOps s ops).lives ≤ (applyOps s ops).maxLives := by
  induction ops with
  | nil => exact fun s h0 h1 => ⟨h0, h1⟩
  | cons op rest ih =>
    intro s h0 h1
    have h := applyOp_lives_bounds s op h0 h1
    exact ih (applyOp s op) h.1 h.2

/-- **C9.** The score manager's lives counter stays within
`[0, maxLives]` across every sequence of operations after `reset()`;
moreover `loseLife()` clamps at 0, `gainLife()` refuses to exceed
`maxLives`, and `reset()` restores lives to `maxLives`. -/
theorem lives_always_in_range :
    (∀ (t0 : ℚ) (ops : List ScoreOp),
        0 ≤ (applyOps (reset initState t0) ops).lives ∧
        (applyOps (reset initState t0) ops).lives ≤
          (applyOps (reset initState t0) ops).maxLives) ∧
    (∀ s : ScoreState, (loseLife s).lives = max 0 (s.lives - 1)) ∧
    (∀ s : ScoreState,
        (gainLife s).lives = if s.lives < s.maxLives then s.lives + 1 else s.lives) ∧
    (∀ (s : ScoreState) (now : ℚ), (reset s now).lives = s.maxLives) := by
  refine ⟨?_, fun s => (loseLife_lives_eq s).1, fun s => (gainLife_lives_eq s).1,
    fun s now => rfl⟩
  intro t0 ops
  exact applyOps_lives_bounds ops (reset initState t0) (by norm_num [reset, initState])
    (by norm_num [reset, initState])

/-- **C2.** Combo behavior of the score manager: an avoidance award at
most 2.0 seconds after the previous one increments the combo by exactly 1
and adds `combo * COMBO_MULTIPLIER` to the (floored) reward; an award
after a gap greater than 2.0 seconds resets the combo to 1; and
`loseLife()` resets the combo to 0 regardless of timing (the combo
counter is never negative in any reachable state). -/
theorem combo_award_spec :
    (∀ (s : ScoreState) (ty : String) (d t : ℚ),
        t - s.lastObstacleAvoidanceTime ≤ 2 →
        (awardObstacleAvoidance s ty d t).combo = s.combo + 1 ∧
        (awardObstacleAvoidance s ty d t).score =
          s.score + Int.floor (OBSTACLE_AVOIDANCE_POINTS * obstacleTypeMultiplier ty * d +
            ((s.combo + 1 : ℤ) : ℚ) * COMBO_MULTIPLIER)) ∧
    (∀ (s : ScoreState) (ty : String) (d t : ℚ),
        2 < t - s.lastObstacleAvoidanceTime →
        (awardObstacleAvoidance s ty d t).combo = 1) ∧
    (∀ s : ScoreState, 0 ≤ s.combo → (loseLife s).combo = 0) := by
  refine ⟨fun s ty d t h => ?_, fun s ty d t h => ?_, fun s h => ?_⟩
  · unfold awardObstacleAvoidance
    dsimp only
    rw [if_pos h]
    exact ⟨rfl, rfl⟩
  · unfold awardObstacleAvoidance
    dsimp only
    rw [if_neg (not_le.mpr h)]
  · unfold loseLife resetCombo
    dsimp only
    split
    · rfl
    · rename_i hc
      
      dsimp only at hc ⊢
      omega

/-- Concrete instantiation of C2's theorem. -/
theorem combo_award_spec_witness :
    ((awardObstacleAvoidance initState "wall" 1 1).combo = initState.combo + 1 ∧
      (awardObstacleAvoidance initState "wall" 1 1).score =
        initState.score + Int.floor (OBSTACLE_AVOIDANCE_POINTS *
          obstacleTypeMultiplier "wall" * 1 +
          ((initState.combo + 1 : ℤ) : ℚ) * COMBO_MULTIPLIER)) ∧
    (awardObstacleAvoidance initState "wall" 1 5).combo = 1 ∧
    (loseLife initState).combo = 0 :=
  ⟨combo_award_spec.1 initState "wall" 1 1 (by norm_num [initState]),
   combo_award_spec.2.1 initState "wall" 1 5 (by norm_num [initState]),
   combo_award_spec.2.2 initState (by norm_num [initState])⟩

/-- **C7.** `calculateFinalScore()` is monotonically non-decreasing in
each of its inputs — running score, survival time, distance traveled and
max combo — when the others are held fixed (stated jointly: it is
monotone in all four simultaneously). -/
theorem calculateFinalScore_monotone (s t : ScoreState)
    (hscore : s.score ≤ t.score) (htime : s.timeSurvived ≤ t.timeSurvived)
    (hdist : s.distance ≤ t.distance) (hcombo : s.maxCombo ≤ t.maxCombo) :
    calculateFinalScore s ≤ calculateFinalScore t := by
  unfold calculateFinalScore
  have h1 : Int.floor (s.timeSurvived * 50) ≤ Int.floor (t.timeSurvived * 50) :=
    Int.floor_le_floor (by nlinarith)
  have h2 : Int.floor (s.distance / 1000) ≤ Int.floor (t.distance / 1000) :=
    Int.floor_le_floor (by linarith)
  have h3 : s.maxCombo * 200 ≤ t.maxCombo * 200 := by omega
  have h2b : Int.floor (s.distance / 1000) * 1000 ≤ Int.floor (t.distance / 1000) * 1000 := by
    omega
  omega

/-- Concrete instantiation of C7's theorem. -/
theorem calculateFinalScore_monotone_witness :
    calculateFinalScore initState ≤
      calculateFinalScore { initState with
        score := 1, timeSurvived := 2, distance := 3, maxCombo := 4 } :=
  calculateFinalScore_monotone _ _ (by norm_num [initState]) (by norm_num [initState])
    (by norm_num [initState]) (by norm_num [initState])

end ScoreManager

namespace GameEngine

/-- **C8.** If during a `PLAYING` tick the lives counter reaches 0 (here:
decremented from 1 to 0 by a collision), the orchestrator transitions to
`GAME_OVER` within that same tick, and every subsequent animation-frame
callback leaves the state untouched and schedules no further frame — so
no further `PLAYING` updates are executed or scheduled. -/
theorem lives_zero_ends_game (inp : TickInputs) (s : EngineState)
    (hplay : s.gameState = GState.playing) (hlives : s.stats.lives = 1)
    (hcol : inp.collisionDetected = true) :
    (gameLoop inp s).1.gameState = GState.game_over ∧
    ∀ inp2 : TickInputs, gameLoop inp2 (gameLoop inp s).1 = ((gameLoop inp s).1, false) := by
  have hupd : (updateGame inp s).gameState = GState.game_over := by
    unfold updateGame handleCollisionStep endGame
    dsimp only
    rw [hcol]
    simp only [if_true]
    split <;> simp [hlives]
  have hfst : (gameLoop inp s).1.gameState = GState.game_over := by
    unfold gameLoop
    rw [if_neg (by simp [hplay])]
    exact hupd
  have halted : ∀ (inp2 : TickInputs) (s2 : EngineState),
      s2.gameState ≠ GState.playing → gameLoop inp2 s2 = (s2, false) := by
    intro inp2 s2 h2
    unfold gameLoop
    rw [if_pos h2]
  exact ⟨hfst, fun inp2 =>
    halted inp2 _ (by rw [hfst]; exact fun hh => GState.noConfusion hh)⟩

/-- Concrete instantiation of C8's theorem. -/
theorem lives_zero_ends_game_witness :
    (gameLoop
        { deltaTime := 1 / 60, collisionDetected := true, newDistance := 10,
          newSpeed := 5, newScore := 7 }
        { gameState := GState.playing,
          stats := { score := 0, distance := 0, speed := 0, lives := 1, combo := 2,
                     obstaclesAvoided := 0, timeElapsed := 0, level := 1 },
          animationId := true }).1.gameState = GState.game_over :=
  (lives_zero_ends_game _ _ rfl rfl rfl).1

end GameEngine

namespace CollisionDetector

open ObstacleManager

theorem rayLoop_cases (G : GeomOracle) (c : Vec3) (m : ℚ) (ob : ObstacleData) :
    ∀ ds : List Vec3,
      rayLoop G c m ob ds = noCollision ∨
        ((rayLoop G c m ob ds).obstacle = some ob ∧
          (rayLoop G c m ob ds).hasCollision = true)
  | [] => Or.inl rfl
  | d :: rest => by
    rw [rayLoop]
    cases hG : G.raycast c d ob with
    | none =>
      exact rayLoop_cases G c m ob rest
    | some hit =>
      dsimp only
      by_cases hd : hit.distance ≤ m
      · rw [if_pos hd]
        exact Or.inr ⟨rfl, rfl⟩
      · rw [if_neg hd]
        exact rayLoop_cases G c m ob rest

theorem detailedCollisionCheck_cases (G : GeomOracle) (carBox : Box3)
    (ob : ObstacleData) :
    detailedCollisionCheck G carBox ob = noCollision ∨
      ((detailedCollisionCheck G carBox ob).obstacle = some ob ∧
        (detailedCollisionCheck G carBox ob).hasCollision = true) :=
  rayLoop_cases G _ _ ob rayDirections

/-- **C5.** Broad phase is necessary: whenever `checkCollisions` reports a
collision with an obstacle, that obstacle was active, its (mesh-derived)
bounding box intersected the car's bounding box, and the narrow-phase ray
test for it succeeded — so for an obstacle whose bounding volumes do not
intersect, `checkCollisions` never reports a collision. -/
theorem checkCollisions_broad_phase (G : GeomOracle) (carBox : Box3) :
    ∀ (l : List ObstacleData) (ob : ObstacleData),
      (checkCollisions G carBox l).obstacle = some ob →
      ob.isActive = true ∧ Box3.intersectsBox carBox (G.meshBox ob) = true ∧
        (detailedCollisionCheck G carBox ob).hasCollision = true
  | [], ob => by
    intro h
    simp [checkCollisions, noCollision] at h
  | obstacle :: rest, ob => by
    intro h
    rw [checkCollisions] at h
    by_cases ha : obstacle.isActive = false
    · rw [if_pos ha] at h
      exact checkCollisions_broad_phase G carBox rest ob h
    · rw [if_neg ha] at h
      dsimp only at h
      by_cases hb : Box3.intersectsBox carBox (G.meshBox obstacle) = true
      · rw [if_pos hb] at h
        by_cases hc : (detailedCollisionCheck G carBox obstacle).hasCollision = true
        · rw [if_pos hc] at h
          rcases detailedCollisionCheck_cases G carBox obstacle with hnone | ⟨hob, _⟩
          · rw [hnone] at hc
            exact absurd hc (by simp [noCollision])
          · rw [hob] at h
            cases h
            refine ⟨?_, hb, hc⟩
            revert ha
            cases obstacle.isActive <;> simp
        · rw [if_neg hc] at h
          exact checkCollisions_broad_phase G carBox rest ob h
      · rw [if_neg hb] at h
        exact checkCollisions_broad_phase G carBox rest ob h

/-- A concrete geometry oracle: a unit-cube mesh box and a raycaster that
always hits at distance zero. -/
def witnessGeom : GeomOracle :=
  { meshBox := fun _ =>
      { lowCorner := { x := -1, y := -1, z := -1 },
        highCorner := { x := 1, y := 1, z := 1 } },
    raycast := fun _ _ _ =>
      some { distance := 0, point := { x := 0, y := 0, z := 0 }, faceNormal := none } }

/-- A concrete active obstacle. -/
def witnessObstacle : ObstacleManager.ObstacleData :=
  { meshType := ObstacleManager.ObstacleType.barrier, meshIdx := 0,
    position := { x := 0, y := 1, z := 0 }, isActive := true,
    speed := none, direction := none }

/-- A concrete car bounding box overlapping the witness obstacle. -/
def witnessCarBox : Box3 :=
  { lowCorner := { x := -1, y := -1, z := -1 },
    highCorner := { x := 1, y := 1, z := 1 } }

/-- Concrete instantiation of C5's theorem. -/
theorem checkCollisions_broad_phase_witness :
    witnessObstacle.isActive = true ∧
    Box3.intersectsBox witnessCarBox (witnessGeom.meshBox witnessObstacle) = true ∧
    (detailedCollisionCheck witnessGeom witnessCarBox witnessObstacle).hasCollision = true :=
  checkCollisions_broad_phase witnessGeom witnessCarBox [witnessObstacle]
    witnessObstacle
    (by norm_num [checkCollisions, detailedCollisionCheck, rayLoop, rayDirections,
      noCollision, witnessGeom, witnessObstacle, witnessCarBox, Box3.intersectsBox,
      Box3.getCenter, Box3.getSize, Vec3.add, Vec3.smul, Vec3.sub])

end CollisionDetector

namespace ObstacleManager

/-- Two manager states that agree on the spawn cursor, the difficulty and
the underlying random stream (the spawn loop's control state). -/
def SameGeom (s1 s2 : OMState) : Prop :=
  s1.lastSpawnZ = s2.lastSpawnZ ∧ s1.difficulty = s2.difficulty ∧
    s1.rng.stream = s2.rng.stream

theorem sameGeom_refl (s : OMState) : SameGeom s s :=
  ⟨rfl, rfl, rfl⟩

theorem sameGeom_trans {a b c : OMState} (h1 : SameGeom a b) (h2 : SameGeom b c) :
    SameGeom a c :=
  ⟨h1.1.trans h2.1, h1.2.1.trans h2.2.1, h1.2.2.trans h2.2.2⟩

theorem createObstacle_sameGeom (s : OMState) (t : ObstacleType) (x z : ℚ) :
    SameGeom (createObstacle s t x z).1 s := by
  unfold createObstacle
  split
  · exact sameGeom_refl s
  · split
    · exact sameGeom_refl s
    · exact ⟨rfl, rfl, rfl⟩

theorem spawnSingleBarrier_sameGeom (s : OMState) (z : ℚ) :
    SameGeom (spawnSingleBarrier s z) s := by
  unfold spawnSingleBarrier
  dsimp only [MathUtils.random, Rng.next]
  exact sameGeom_trans (createObstacle_sameGeom _ _ _ _) ⟨rfl, rfl, rfl⟩

theorem spawnDoubleBarrier_sameGeom (s : OMState) (z : ℚ) :
    SameGeom (spawnDoubleBarrier s z) s := by
  unfold spawnDoubleBarrier
  dsimp only [MathUtils.random, Rng.next]
  exact sameGeom_trans (createObstacle_sameGeom _ _ _ _)
    (sameGeom_trans (createObstacle_sameGeom _ _ _ _) ⟨rfl, rfl, rfl⟩)

theorem spawnWallGap_sameGeom (s : OMState) (z : ℚ) :
    SameGeom (spawnWallGap s z) s := by
  unfold spawnWallGap
  dsimp only [MathUtils.random, Rng.next]
  split
  · split
    · exact sameGeom_trans (createObstacle_sameGeom _ _ _ _)
        (sameGeom_trans (createObstacle_sameGeom _ _ _ _) ⟨rfl, rfl, rfl⟩)
    · exact sameGeom_trans (createObstacle_sameGeom _ _ _ _) ⟨rfl, rfl, rfl⟩
  · split
    · exact sameGeom_trans (createObstacle_sameGeom _ _ _ _) ⟨rfl, rfl, rfl⟩
    · exact ⟨rfl, rfl, rfl⟩

theorem coneSlalomLoop_sameGeom (z : ℚ) (n : ℕ) :
    ∀ (i : ℕ) (s : OMState), SameGeom (coneSlalomLoop z i n s) s := by
  induction n with
  | zero => exact fun i s => sameGeom_refl s
  | succ n ih =>
    intro i s
    rw [coneSlalomLoop]
    dsimp only [MathUtils.random, Rng.next]
    exact sameGeom_trans (ih (i + 1) _)
      (sameGeom_trans (createObstacle_sameGeom _ _ _ _) ⟨rfl, rfl, rfl⟩)

theorem spawnConeSlalom_sameGeom (s : OMState) (z : ℚ) :
    SameGeom (spawnConeSlalom s z) s :=
  coneSlalomLoop_sameGeom z _ 0 s

theorem spawnNarrowPassage_sameGeom (s : OMState) (z : ℚ) :
    SameGeom (spawnNarrowPassage s z) s := by
  unfold spawnNarrowPassage
  dsimp only
  exact sameGeom_trans (createObstacle_sameGeom _ _ _ _)
    (sameGeom_trans (createObstacle_sameGeom _ _ _ _)
      (sameGeom_trans (createObstacle_sameGeom _ _ _ _)
        (createObstacle_sameGeom _ _ _ _)))

theorem spawnMovingBarriers_sameGeom (s : OMState) (z : ℚ) :
    SameGeom (spawnMovingBarriers s z) s := by
  unfold spawnMovingBarriers
  dsimp only [MathUtils.random, Rng.next]
  split
  · split
    · exact sameGeom_trans ⟨rfl, rfl, rfl⟩
        (sameGeom_trans (createObstacle_sameGeom _ _ _ _)
          (sameGeom_trans ⟨rfl, rfl, rfl⟩ (createObstacle_sameGeom _ _ _ _)))
    · exact sameGeom_trans (createObstacle_sameGeom _ _ _ _)
        (sameGeom_trans ⟨rfl, rfl, rfl⟩ (createObstacle_sameGeom _ _ _ _))
  · split
    · exact sameGeom_trans ⟨rfl, rfl, rfl⟩
        (sameGeom_trans (createObstacle_sameGeom _ _ _ _)
          (createObstacle_sameGeom _ _ _ _))
    · exact sameGeom_trans (createObstacle_sameGeom _ _ _ _)
        (createObstacle_sameGeom _ _ _ _)

theorem spawnObstaclePattern_sameGeom (s : OMState) (z : ℚ) :
    SameGeom (spawnObstaclePattern s z) s := by
  unfold spawnObstaclePattern
  split
  · exact sameGeom_refl s
  · dsimp only [Rng.next]
    split
    · split
      · exact sameGeom_trans (spawnSingleBarrier_sameGeom _ _) ⟨rfl, rfl, rfl⟩
      · split
        · exact sameGeom_trans (spawnDoubleBarrier_sameGeom _ _) ⟨rfl, rfl, rfl⟩
        · split
          · exact sameGeom_trans (spawnWallGap_sameGeom _ _) ⟨rfl, rfl, rfl⟩
          · split
            · exact sameGeom_trans (spawnConeSlalom_sameGeom _ _) ⟨rfl, rfl, rfl⟩
            · split
              · exact sameGeom_trans (spawnNarrowPassage_sameGeom _ _) ⟨rfl, rfl, rfl⟩
              · split
                · exact sameGeom_trans (spawnMovingBarriers_sameGeom _ _) ⟨rfl, rfl, rfl⟩
                · exact ⟨rfl, rfl, rfl⟩
    · exact ⟨rfl, rfl, rfl⟩

/-- **C4.** On each update tick, obstacles are spawned by the loop
`while (lastSpawnZ < carPosition.z + spawnDistance)`; a non-satisfied
guard spawns nothing; each iteration advances `lastSpawnZ` by the draw of
`MathUtils.random(10, 20 / difficulty)` and places exactly one obstacle
pattern at the advanced coordinate; and for a fixed raw draw the
increment is antitone in the difficulty (higher difficulty gives smaller
spacing, hence denser obstacles). -/
theorem spawn_loop_spec :
    (∀ (s : OMState) (carPosition : Vec3) (fuel : ℕ),
        spawnObstacles s carPosition fuel =
          spawnLoop (carPosition.z + s.spawnDistance) fuel s) ∧
    (∀ (spawnZ : ℚ) (fuel : ℕ) (s : OMState), ¬ s.lastSpawnZ < spawnZ →
        spawnLoop spawnZ fuel s = s) ∧
    (∀ (spawnZ : ℚ) (fuel : ℕ) (s : OMState), s.lastSpawnZ < spawnZ →
        spawnLoop spawnZ (fuel + 1) s =
          spawnLoop spawnZ fuel
            (spawnObstaclePattern
              { s with rng := (MathUtils.random s.rng 10 (20 / s.difficulty)).2,
                       lastSpawnZ :=
                         s.lastSpawnZ + (MathUtils.random s.rng 10 (20 / s.difficulty)).1 }
              (s.lastSpawnZ + (MathUtils.random s.rng 10 (20 / s.difficulty)).1))) ∧
    (∀ u d1 d2 : ℚ, 0 ≤ u → 0 < d1 → d1 ≤ d2 →
        MathUtils.randomFrom u 10 (20 / d2) ≤ MathUtils.randomFrom u 10 (20 / d1)) := by
  refine ⟨fun s carPosition fuel => rfl, fun spawnZ fuel s h => ?_,
    fun spawnZ fuel s h => ?_, fun u d1 d2 hu hd1 hd12 => ?_⟩
  · cases fuel with
    | zero => rfl
    | succ n =>
      rw [spawnLoop]
      rw [if_neg h]
  · rw [spawnLoop]
    rw [if_pos h]
  · unfold MathUtils.randomFrom
    have hdiv : 20 / d2 ≤ 20 / d1 :=
      div_le_div_of_nonneg_left (by norm_num) hd1 hd12
    have := mul_le_mul_of_nonneg_left (sub_le_sub_right hdiv 10) hu
    linarith

/-- Concrete instantiation of C4's theorem. -/
theorem spawn_loop_spec_witness :
    (spawnLoop 0 7 (initialState { stream := fun _ => 0, idx := 0 }) =
      initialState { stream := fun _ => 0, idx := 0 }) ∧
    (MathUtils.randomFrom 0 10 (20 / 2) ≤ MathUtils.randomFrom 0 10 (20 / 1)) :=
  ⟨spawn_loop_spec.2.1 0 7 (initialState { stream := fun _ => 0, idx := 0 })
      (by norm_num [initialState]),
   spawn_loop_spec.2.2.2 0 1 2 (by norm_num) (by norm_num) (by norm_num)⟩

theorem randomFrom_ge_four (u d : ℚ) (hu0 : 0 ≤ u) (hu1 : u ≤ 1)
    (hd1 : 1 ≤ d) (hd5 : d ≤ 5) : 4 ≤ MathUtils.randomFrom u 10 (20 / d) := by
  have hd0 : 0 < d := lt_of_lt_of_le one_pos hd1
  have hv4 : 4 ≤ 20 / d := by
    rw [le_div_iff hd0]
    linarith
  have hprod : u * 4 ≤ u * (20 / d) := mul_le_mul_of_nonneg_left hv4 hu0
  unfold MathUtils.randomFrom
  nlinarith

/-- The difficulty recomputed each tick always lies in the range `[1, 5]`
used by the termination argument. -/
theorem updateDifficulty_range (s : OMState) (h : 0 ≤ s.timeSinceStart) :
    1 ≤ (updateDifficulty s).difficulty ∧ (updateDifficulty s).difficulty ≤ 5 := by
  unfold updateDifficulty
  constructor
  · exact le_min (by linarith) (by norm_num)
  · exact min_le_right _ _

/-- **C10.** The spawn `while` loop terminates on every tick: with the
difficulty in its reachable range `[1, 5]` and raw draws in `[0, 1]`,
every iteration advances `lastSpawnZ` by at least
`min(10, 20/difficulty) ≥ 4`, so a fuel budget of `(spawnZ - lastSpawnZ)/4`
iterations suffices to reach the loop's exit condition
`lastSpawnZ ≥ spawnZ`. -/
theorem spawnLoop_terminates (spawnZ : ℚ) (fuel : ℕ) :
    ∀ s : OMState, 1 ≤ s.difficulty → s.difficulty ≤ 5 →
      (∀ n, 0 ≤ s.rng.stream n ∧ s.rng.stream n ≤ 1) →
      spawnZ - s.lastSpawnZ ≤ 4 * fuel →
      spawnZ ≤ (spawnLoop spawnZ fuel s).lastSpawnZ := by
  induction fuel with
  | zero =>
    intro s _ _ _ hfuel
    rw [spawnLoop]
    push_cast at hfuel
    linarith
  | succ n ih =>
    intro s hd1 hd5 hstream hfuel
    by_cases h : s.lastSpawnZ < spawnZ
    · rw [spawnLoop, if_pos h]
      dsimp only [MathUtils.random, Rng.next]
      set inc := MathUtils.randomFrom (s.rng.stream s.rng.idx) 10 (20 / s.difficulty) with hinc
      have hinc4 : 4 ≤ inc :=
        randomFrom_ge_four _ _ (hstream s.rng.idx).1 (hstream s.rng.idx).2 hd1 hd5
      have hgeom := spawnObstaclePattern_sameGeom
        { s with rng := { stream := s.rng.stream, idx := s.rng.idx + 1 },
                 lastSpawnZ := s.lastSpawnZ + inc }
        (s.lastSpawnZ + inc)
      exact ih (spawnObstaclePattern
          { s with rng := { stream := s.rng.stream, idx := s.rng.idx + 1 },
                   lastSpawnZ := s.lastSpawnZ + inc }
          (s.lastSpawnZ + inc))
        (by rw [hgeom.2.1]; exact hd1)
        (by rw [hgeom.2.1]; exact hd5)
        (by rw [hgeom.2.2]; exact hstream)
        (by rw [hgeom.1]
            dsimp only
            push_cast
            push_cast at hfuel
            linarith)
    · rw [spawnLoop, if_neg h]
      linarith [not_lt.mp h]

/-- Concrete instantiation of C10's theorem. -/
theorem spawnLoop_terminates_witness :
    (0 : ℚ) ≤ (spawnLoop 0 0 (initialState { stream := fun _ => 0, idx := 0 })).lastSpawnZ :=
  spawnLoop_terminates 0 0 (initialState { stream := fun _ => 0, idx := 0 })
    (by norm_num [initialState]) (by norm_num [initialState])
    (fun n => by norm_num [initialState]) (by norm_num [initialState])

theorem get?_set_self {α : Type} : ∀ (l : List α) (i : ℕ) (a : α), i < l.length →
    (l.set i a).get? i = some a
  | [], i, _, h => absurd h (Nat.not_lt_zero i)
  | _ :: _, 0, _, _ => rfl
  | _ :: l, i + 1, a, h => get?_set_self l i a (Nat.lt_of_succ_lt_succ h)

theorem get?_set_ne {α : Type} : ∀ (l : List α) (i j : ℕ) (a : α), i ≠ j →
    (l.set i a).get? j = l.get? j
  | [], _, _, _, _ => rfl
  | _ :: _, 0, 0, _, h => absurd rfl h
  | _ :: _, 0, _ + 1, _, _ => rfl
  | _ :: _, _ + 1, 0, _, _ => rfl
  | _ :: l, i + 1, j + 1, a, h =>
    get?_set_ne l i j a (fun hh => h (congrArg Nat.succ hh))

theorem lt_length_of_get?_eq_some {α : Type} : ∀ (l : List α) (i : ℕ) (a : α),
    l.get? i = some a → i < l.length
  | [], i, a, h => by cases i <;> exact Option.noConfusion h
  | _ :: _, 0, _, _ => Nat.succ_pos _
  | _ :: l, i + 1, a, h => Nat.succ_lt_succ (lt_length_of_get?_eq_some l i a h)

theorem firstFree_spec : ∀ (l : List Bool) (i : ℕ), firstFree l = some i →
    l.get? i = some false
  | [], i, h => by simp [firstFree] at h
  | b :: l, i, h => by
    rw [firstFree] at h
    cases b with
    | false =>
      rw [if_neg (by simp)] at h
      cases h
      rfl
    | true =>
      rw [if_pos rfl] at h
      cases hf : firstFree l with
      | none =>
        rw [hf] at h
        simp at h
      | some j =>
        rw [hf] at h
        rw [Option.map_some'] at h
        cases h
        exact firstFree_spec l j hf

/-- The pool slot an obstacle's mesh occupies. -/
def slotKey (o : ObstacleData) : ObstacleType × ℕ :=
  (o.meshType, o.meshIdx)

/-- The pooling invariant: every per-type pool has at most the 20 slots it
was created with, every tracked obstacle holds a visible pool slot, and no
two tracked obstacles share a slot. -/
def PoolInv (s : OMState) : Prop :=
  (∀ t, (s.pool t).length ≤ 20) ∧
  (∀ k ∈ s.obstacles.map slotKey, (s.pool k.1).get? k.2 = some true) ∧
  (s.obstacles.map slotKey).Nodup

theorem poolInv_congr {s1 s2 : OMState}
    (hpool : s1.pool = s2.pool)
    (hkeys : s1.obstacles.map slotKey = s2.obstacles.map slotKey)
    (h : PoolInv s2) : PoolInv s1 := by
  refine ⟨?_, ?_, ?_⟩
  · rw [hpool]; exact h.1
  · rw [hpool, hkeys]; exact h.2.1
  · rw [hkeys]; exact h.2.2

theorem createObstacle_poolInv (s : OMState) (t : ObstacleType) (x z : ℚ)
    (h : PoolInv s) : PoolInv (createObstacle s t x z).1 := by
  unfold createObstacle
  split
  · exact h
  · split
    · exact h
    · rename_i i hfree
      have hslot : (s.pool t).get? i = some false := firstFree_spec _ _ hfree
      have hlt : i < (s.pool t).length := lt_length_of_get?_eq_some _ _ _ hslot
      refine ⟨?_, ?_, ?_⟩
      · intro t2
        dsimp only
        rw [Function.update_apply]
        split
        · rw [List.length_set]
          exact h.1 t
        · exact h.1 t2
      · intro k hk
        dsimp only at hk ⊢
        rw [List.map_append] at hk
        rcases List.mem_append.mp hk with hold | hnew
        · have hkold := h.2.1 k hold
          rw [Function.update_apply]
          split
          · rename_i hkt
            rw [hkt] at hkold
            have hne : i ≠ k.2 := by
              intro hie
              rw [← hie] at hkold
              rw [hslot] at hkold
              cases hkold
            rw [get?_set_ne _ _ _ _ hne]
            exact hkold
          · exact hkold
        · simp only [List.map_cons, List.map_nil, List.mem_singleton] at hnew
          subst hnew
          dsimp only [slotKey]
          rw [Function.update_same]
          exact get?_set_self _ _ _ hlt
      · dsimp only
        rw [List.map_append]
        rw [List.nodup_append]
        refine ⟨h.2.2, List.nodup_singleton _, ?_⟩
        intro k hk hk2
        simp only [List.map_cons, List.map_nil, List.mem_singleton] at hk2
        subst hk2
        have hkold := h.2.1 _ hk
        dsimp only [slotKey] at hkold
        rw [hslot] at hkold
        cases hkold

theorem modifyLast_map_slotKey (f : ObstacleData → ObstacleData)
    (hf : ∀ o, slotKey (f o) = slotKey o) :
    ∀ l : List ObstacleData, (modifyLast f l).map slotKey = l.map slotKey
  | [] => rfl
  | [a] => by simp [modifyLast, hf a]
  | a :: b :: rest => by
    rw [modifyLast]
    simp only [List.map_cons]
    rw [modifyLast_map_slotKey f hf (b :: rest)]
    simp only [List.map_cons]

theorem spawnSingleBarrier_poolInv (s : OMState) (z : ℚ) (h : PoolInv s) :
    PoolInv (spawnSingleBarrier s z) := by
  unfold spawnSingleBarrier
  dsimp only [MathUtils.random, Rng.next]
  exact createObstacle_poolInv _ _ _ _ (poolInv_congr rfl rfl h)

theorem spawnDoubleBarrier_poolInv (s : OMState) (z : ℚ) (h : PoolInv s) :
    PoolInv (spawnDoubleBarrier s z) := by
  unfold spawnDoubleBarrier
  dsimp only [MathUtils.random, Rng.next]
  exact createObstacle_poolInv _ _ _ _
    (createObstacle_poolInv _ _ _ _ (poolInv_congr rfl rfl h))

theorem spawnWallGap_poolInv (s : OMState) (z : ℚ) (h : PoolInv s) :
    PoolInv (spawnWallGap s z) := by
  unfold spawnWallGap
  dsimp only [MathUtils.random, Rng.next]
  split
  · split
    · exact createObstacle_poolInv _ _ _ _
        (createObstacle_poolInv _ _ _ _ (poolInv_congr rfl rfl h))
    · exact createObstacle_poolInv _ _ _ _ (poolInv_congr rfl rfl h)
  · split
    · exact createObstacle_poolInv _ _ _ _ (poolInv_congr rfl rfl h)
    · exact poolInv_congr rfl rfl h

theorem coneSlalomLoop_poolInv (z : ℚ) :
    ∀ (n i : ℕ) (s : OMState), PoolInv s → PoolInv (coneSlalomLoop z i n s)
  | 0, _, _, h => h
  | n + 1, i, s, h => by
    rw [coneSlalomLoop]
    dsimp only [MathUtils.random, Rng.next]
    exact coneSlalomLoop_poolInv z n (i + 1) _
      (createObstacle_poolInv _ _ _ _ (poolInv_congr rfl rfl h))

theorem spawnConeSlalom_poolInv (s : OMState) (z : ℚ) (h : PoolInv s) :
    PoolInv (spawnConeSlalom s z) :=
  coneSlalomLoop_poolInv z _ 0 s h

theorem spawnNarrowPassage_poolInv (s : OMState) (z : ℚ) (h : PoolInv s) :
    PoolInv (spawnNarrowPassage s z) := by
  unfold spawnNarrowPassage
  dsimp only
  exact createObstacle_poolInv _ _ _ _ (createObstacle_poolInv _ _ _ _
    (createObstacle_poolInv _ _ _ _ (createObstacle_poolInv _ _ _ _ h)))

theorem movementUpdate_poolInv {s : OMState} (r : Rng) (spd : ℚ) (dir : Vec3)
    (h : PoolInv s) :
    PoolInv { s with rng := r,
                     obstacles := modifyLast
                       (fun o => { o with speed := some spd, direction := some dir })
                       s.obstacles } :=
  @poolInv_congr
    { s with rng := r,
             obstacles := modifyLast
               (fun o => { o with speed := some spd, direction := some dir })
               s.obstacles }
    s rfl
    (modifyLast_map_slotKey (fun o => { o with speed := some spd, direction := some dir })
      (fun _ => rfl) s.obstacles)
    h

theorem spawnMovingBarriers_poolInv (s : OMState) (z : ℚ) (h : PoolInv s) :
    PoolInv (spawnMovingBarriers s z) := by
  unfold spawnMovingBarriers
  have hinv1 := createObstacle_poolInv s ObstacleType.barrier (-4) z h
  rcases hpair1 : createObstacle s ObstacleType.barrier (-4) z with ⟨s1, left⟩
  rw [hpair1] at hinv1
  dsimp only at hinv1 ⊢
  cases left with
  | none =>
    dsimp only
    have hinv2 := createObstacle_poolInv s1 ObstacleType.barrier 4 z hinv1
    rcases hpair2 : createObstacle s1 ObstacleType.barrier 4 z with ⟨s3, right⟩
    rw [hpair2] at hinv2
    dsimp only at hinv2 ⊢
    cases right with
    | none => exact hinv2
    | some r0 =>
      dsimp only [MathUtils.random, Rng.next]
      exact movementUpdate_poolInv _ _ _ hinv2
  | some l0 =>
    dsimp only [MathUtils.random, Rng.next]
    have hinv1b := movementUpdate_poolInv
      { stream := s1.rng.stream, idx := s1.rng.idx + 1 }
      (MathUtils.randomFrom (s1.rng.stream s1.rng.idx) 2 4)
      { x := 1, y := 0, z := 0 } hinv1
    have hinv2 := createObstacle_poolInv _ ObstacleType.barrier 4 z hinv1b
    rcases hpair2 : createObstacle
      { s1 with rng := { stream := s1.rng.stream, idx := s1.rng.idx + 1 },
                obstacles := modifyLast
                  (fun o => { o with
                    speed := some (MathUtils.randomFrom (s1.rng.stream s1.rng.idx) 2 4),
                    direction := some { x := 1, y := 0, z := 0 } }) s1.obstacles }
      ObstacleType.barrier 4 z with ⟨s3, right⟩
    rw [hpair2] at hinv2
    dsimp only at hinv2 ⊢
    cases right with
    | none => exact hinv2
    | some r0 =>
      dsimp only [MathUtils.random, Rng.next]
      exact movementUpdate_poolInv _ _ _ hinv2

theorem spawnObstaclePattern_poolInv (s : OMState) (z : ℚ) (h : PoolInv s) :
    PoolInv (spawnObstaclePattern s z) := by
  unfold spawnObstaclePattern
  split
  · exact h
  · dsimp only [Rng.next]
    have h1 : PoolInv { s with rng := { stream := s.rng.stream, idx := s.rng.idx + 1 } } :=
      poolInv_congr rfl rfl h
    split
    · split
      · exact spawnSingleBarrier_poolInv _ _ h1
      · split
        · exact spawnDoubleBarrier_poolInv _ _ h1
        · split
          · exact spawnWallGap_poolInv _ _ h1
          · split
            · exact spawnConeSlalom_poolInv _ _ h1
            · split
              · exact spawnNarrowPassage_poolInv _ _ h1
              · split
                · exact spawnMovingBarriers_poolInv _ _ h1
                · exact h1
    · exact h1

theorem foldl_return_length : ∀ (rem : List ObstacleData)
    (pool : ObstacleType → List Bool) (t : ObstacleType),
    ((rem.foldl returnObstacleToPool pool) t).length = (pool t).length
  | [], _, _ => rfl
  | o :: rest, pool, t => by
    rw [List.foldl_cons]
    rw [foldl_return_length rest _ t]
    unfold returnObstacleToPool
    rw [Function.update_apply]
    split
    · rename_i ht
      rw [ht, List.length_set]
    · rfl

theorem foldl_return_get? : ∀ (rem : List ObstacleData)
    (pool : ObstacleType → List Bool) (k : ObstacleType × ℕ),
    (∀ o ∈ rem, slotKey o ≠ k) →
    ((rem.foldl returnObstacleToPool pool) k.1).get? k.2 = (pool k.1).get? k.2
  | [], _, _, _ => rfl
  | o :: rest, pool, k, hne => by
    rw [List.foldl_cons]
    rw [foldl_return_get? rest _ k (fun o2 ho2 => hne o2 (List.mem_cons_of_mem _ ho2))]
    unfold returnObstacleToPool
    rw [Function.update_apply]
    split
    · rename_i ht
      have hkey := hne o (List.mem_cons_self o rest)
      have hidx : o.meshIdx ≠ k.2 := by
        intro hi
        apply hkey
        have : slotKey o = (o.meshType, o.meshIdx) := rfl
        rw [this, hi, ← ht]
      rw [get?_set_ne _ _ _ _ hidx, ← ht]
    · rfl

theorem cleanupObstacles_poolInv (s : OMState) (carPos : Vec3) (h : PoolInv s) :
    PoolInv (cleanupObstacles s carPos) := by
  unfold cleanupObstacles
  dsimp only
  refine ⟨?_, ?_, ?_⟩
  · intro t
    rw [foldl_return_length]
    exact h.1 t
  · intro k hk
    rcases List.mem_map.mp hk with ⟨o, ho, rfl⟩
    have hol : o ∈ s.obstacles := List.mem_of_mem_filter ho
    have hop := (List.mem_filter.mp ho).2
    rw [foldl_return_get?]
    · exact h.2.1 _ (List.mem_map_of_mem slotKey hol)
    · intro r hr hkey
      have hrl : r ∈ s.obstacles := List.mem_of_mem_filter hr
      have hrp := (List.mem_filter.mp hr).2
      have hre : r = o := List.inj_on_of_nodup_map h.2.2 hrl hol hkey
      rw [hre] at hrp
      rw [hrp] at hop
      simp at hop
  · exact List.Nodup.sublist (List.Sublist.map slotKey (List.filter_sublist _)) h.2.2

theorem slotKey_moveObstacle (deltaTime : ℚ) (o : ObstacleData) :
    slotKey (moveObstacle deltaTime o) = slotKey o := by
  unfold moveObstacle
  split
  · rfl
  · rfl

theorem updateMovingObstacles_poolInv (s : OMState) (deltaTime : ℚ)
    (h : PoolInv s) : PoolInv (updateMovingObstacles s deltaTime) := by
  have hkeys : (s.obstacles.map (moveObstacle deltaTime)).map slotKey =
      s.obstacles.map slotKey := by
    rw [List.map_map]
    exact List.map_congr_left (fun o _ => slotKey_moveObstacle deltaTime o)
  exact @poolInv_congr (updateMovingObstacles s deltaTime) s rfl hkeys h

theorem spawnLoop_poolInv (spawnZ : ℚ) : ∀ (fuel : ℕ) (s : OMState), PoolInv s →
    PoolInv (spawnLoop spawnZ fuel s)
  | 0, _, h => h
  | fuel + 1, s, h => by
    rw [spawnLoop]
    split
    · dsimp only [MathUtils.random, Rng.next]
      exact spawnLoop_poolInv spawnZ fuel _
        (spawnObstaclePattern_poolInv _ _ (poolInv_congr rfl rfl h))
    · exact h

theorem update_poolInv (s : OMState) (deltaTime : ℚ) (carPosition : Vec3) (fuel : ℕ)
    (h : PoolInv s) : PoolInv (update s deltaTime carPosition fuel) := by
  unfold update spawnObstacles updateDifficulty
  exact updateMovingObstacles_poolInv _ _ (spawnLoop_poolInv _ _ _
    (cleanupObstacles_poolInv _ _ (poolInv_congr rfl rfl h)))

theorem foldl_pattern_poolInv : ∀ (zs : List ℚ) (s : OMState), PoolInv s →
    PoolInv (zs.foldl (fun s2 z => spawnObstaclePattern s2 z) s)
  | [], _, h => h
  | z :: rest, s, h =>
    foldl_pattern_poolInv rest _ (spawnObstaclePattern_poolInv s z h)

theorem spawnInitialObstacles_poolInv (s : OMState) (h : PoolInv s) :
    PoolInv (spawnInitialObstacles s) :=
  foldl_pattern_poolInv _ s h

theorem reset_poolInv (s : OMState) (h : PoolInv s) : PoolInv (reset s) := by
  unfold reset
  apply spawnInitialObstacles_poolInv
  refine ⟨?_, ?_, ?_⟩
  · intro t
    dsimp only
    rw [foldl_return_length]
    exact h.1 t
  · intro k hk
    exact absurd hk (List.not_mem_nil k)
  · exact List.nodup_nil

theorem initManager_poolInv (r : Rng) : PoolInv (initManager (initialState r)) := by
  unfold initManager
  apply spawnInitialObstacles_poolInv
  refine ⟨?_, ?_, ?_⟩
  · intro t
    dsimp only [createObstaclePool, initialState]
    rw [List.length_replicate]
  · intro k hk
    exact absurd hk (List.not_mem_nil k)
  · exact List.nodup_nil

theorem reachable_poolInv (s : OMState) (h : Reachable s) : PoolInv s := by
  induction h with
  | initialized r => exact initManager_poolInv r
  | stepUpdate s2 dt cp fuel _ ih => exact update_poolInv s2 dt cp fuel ih
  | stepReset s2 _ ih => exact reset_poolInv s2 ih

theorem length_le_of_poolInv (s : OMState) (h : PoolInv s) :
    s.obstacles.length ≤ 60 := by
  classical
  have hbound : ∀ k ∈ s.obstacles.map slotKey, k.2 < 20 := by
    intro k hk
    exact lt_of_lt_of_le
      (lt_length_of_get?_eq_some _ _ _ (h.2.1 k hk)) (h.1 k.1)
  have hinj : ∀ x ∈ s.obstacles.map slotKey, ∀ y ∈ s.obstacles.map slotKey,
      (fun k : ObstacleType × ℕ =>
        ((k.1, ⟨k.2 % 20, Nat.mod_lt _ (by norm_num)⟩) : ObstacleType × Fin 20)) x =
      (fun k : ObstacleType × ℕ =>
        ((k.1, ⟨k.2 % 20, Nat.mod_lt _ (by norm_num)⟩) : ObstacleType × Fin 20)) y →
      x = y := by
    intro x hx y hy hxy
    have hx2 := hbound x hx
    have hy2 := hbound y hy
    dsimp only at hxy
    have h1 := congrArg (fun p : ObstacleType × Fin 20 => p.1) hxy
    have h2 := congrArg (fun p : ObstacleType × Fin 20 => p.2.val) hxy
    dsimp only at h1 h2
    rw [Nat.mod_eq_of_lt hx2, Nat.mod_eq_of_lt hy2] at h2
    exact Prod.ext h1 h2
  have hnodup2 := h.2.2.map_on hinj
  have hcard := List.toFinset_card_of_nodup hnodup2
  have hle := Finset.card_le_univ ((s.obstacles.map slotKey).map
    (fun k : ObstacleType × ℕ =>
      ((k.1, ⟨k.2 % 20, Nat.mod_lt _ (by norm_num)⟩) : ObstacleType × Fin 20))).toFinset
  have hcard60 : Fintype.card (ObstacleType × Fin 20) = 60 := by
    rw [Fintype.card_prod, Fintype.card_fin]
    decide
  rw [hcard60] at hle
  rw [hcard] at hle
  rw [List.length_map, List.length_map] at hle
  exact hle

/-- **C3.** The number of obstacles in the manager's active set never
exceeds `poolSize × typeCount = 20 × 3 = 60` in any reachable session
state, and a spawn request whose per-type pool has no free instance is
dropped: `createObstacle` leaves the state unchanged and returns no
obstacle. -/
theorem active_obstacles_bounded :
    (∀ s : OMState, Reachable s → (getObstacles s).length ≤ 60) ∧
    (∀ (s : OMState) (t : ObstacleType) (x z : ℚ),
        getObstacleFromPool s t = none → createObstacle s t x z = (s, none)) := by
  constructor
  · intro s hs
    exact le_trans (List.length_filter_le _ _)
      (length_le_of_poolInv s (reachable_poolInv s hs))
  · intro s t x z hnone
    unfold getObstacleFromPool at hnone
    unfold createObstacle
    split
    · rfl
    · rw [hnone]

/-- Concrete instantiation of C3's theorem: the freshly initialized
manager respects the bound, and a spawn request against a fully visible
(fully exhausted) pool is dropped. -/
theorem active_obstacles_bounded_witness :
    (getObstacles (initManager (initialState { stream := fun _ => 0, idx := 0 }))).length ≤ 60 ∧
    createObstacle
        { initialState { stream := fun _ => 0, idx := 0 } with
          scene := true, pool := fun _ => List.replicate 20 true }
        ObstacleType.barrier 0 0 =
      ({ initialState { stream := fun _ => 0, idx := 0 } with
          scene := true, pool := fun _ => List.replicate 20 true }, none) :=
  ⟨active_obstacles_bounded.1 _ (Reachable.initialized _),
   active_obstacles_bounded.2 _ ObstacleType.barrier 0 0 rfl⟩

end ObstacleManager
